import Mathlib

/-!
Verification development for the Silva message bot (`src/silva.js`).

The file shallowly embeds the pieces of the source that carry invariants:
the ephemeral message cache with its lazy sweep (the `messages.upsert`
cache listener), the two anti-delete recovery handlers (`messages.update`
and `messages.delete`), and the command dispatch pipeline of the main
`messages.upsert` handler (mode check, built-in commands, plugin lookup,
permission gating, handler execution).  External collaborators (the
socket, the long-lived store, media downloads) are passed in as explicit
parameters; fallible operations are `Except`/`Option` valued.  Machine
time is modelled as `Nat` milliseconds; the JS comparison
`now - value.timestamp > WINDOW` agrees with truncated `Nat` subtraction
(a negative JS difference and a truncated-to-zero `Nat` difference both
fail the `>` test).
-/

namespace Silva

/-- A Baileys message key: `{remoteJid, id, fromMe, participant}`. -/

structure MsgKey where
  remoteJid : String
  id : String
  fromMe : Bool
  participant : Option String
deriving DecidableEq, Repr

/-- Inbound message content.  The source determines a message's variant by
`Object.keys(m.message)[0]`; a single-constructor tagged union embeds that
one authoritative variant.  Captions default to the empty string, matching
the JS `caption || ''` and the falsiness of `''` in `if (…caption)`. -/

inductive MsgContent where
  | conversation (text : String)
  | extendedTextMessage (text : String)
  | imageMessage (caption : String)
  | videoMessage (caption : String)
  | audioMessage
  | stickerMessage
  | documentMessage (caption : String)
  | otherMessage (tag : String)
deriving DecidableEq, Repr

/-- The source value `Object.keys(msg)[0]` of the variant-bearing structure. -/

def msgTypeName : MsgContent → String
  | .conversation _ => "conversation"
  | .extendedTextMessage _ => "extendedTextMessage"
  | .imageMessage _ => "imageMessage"
  | .videoMessage _ => "videoMessage"
  | .audioMessage => "audioMessage"
  | .stickerMessage => "stickerMessage"
  | .documentMessage _ => "documentMessage"
  | .otherMessage t => t

/-- One element of a `messages.upsert` batch. -/

structure InMsg where
  key : MsgKey
  message : Option MsgContent
  messageTimestamp : Option Nat
deriving DecidableEq, Repr

/-! ## Message cache (anti-delete)

`const messageCache = new Map()` keyed by `` `${remoteJid}-${id}` ``; the
model keys by the pair directly.  The cache is a keyed association list;
`cacheSet` keeps the live binding first, which is `get`-observably the
same as `Map.prototype.set` (one live binding per key). -/

/-- Cache key: the `(remoteJid, id)` pair behind the string key `jid + "-" + id`. -/

abbrev CacheKey := String × String

/-- The record `{ message, timestamp: Date.now() }` stored by the cache listener. -/

structure CacheEntry where
  message : MsgContent
  timestamp : Nat
deriving DecidableEq, Repr

abbrev Cache := List (CacheKey × CacheEntry)

/-- Model of `messageCache.set(cacheKey, entry)`. -/

def cacheSet (k : CacheKey) (e : CacheEntry) (c : Cache) : Cache :=
  (k, e) :: c.filter (fun kv => !(kv.1 == k))

/-- Model of `messageCache.get(cacheKey)`.  Note: no freshness test here — the
source's `get` never consults the timestamp. -/

def cacheGet (k : CacheKey) (c : Cache) : Option CacheEntry :=
  (c.find? (fun kv => kv.1 == k)).map (fun kv => kv.2)

/-- The constant `60 * 60 * 1000` — the one-hour retention window. -/

def retentionWindow : Nat := 60 * 60 * 1000

/-- The eviction loop: `if (now - value.timestamp > 60*60*1000) delete`. -/

def sweep (now : Nat) (c : Cache) : Cache :=
  c.filter (fun kv => !(decide (now - kv.2.timestamp > retentionWindow)))

/-- The `messages.upsert` cache listener: insert every message that has
content and a key id, then sweep.  All of one synchronous batch shares one
`Date.now()` tick `now`. -/

def recordBatch (msgs : List InMsg) (now : Nat) (c : Cache) : Cache :=
  sweep now (msgs.foldl (fun acc m =>
    match m.message with
    | none => acc
    | some content =>
        if m.key.id == "" then acc
        else cacheSet (m.key.remoteJid, m.key.id) ⟨content, now⟩ acc) c)

/-! ## Effects: sends and log lines

`sock.sendMessage(jid, payload, opts)` calls and `logMessage(type, text)`
calls are collected as data.  Payloads are kept to the shape the claims
inspect; replying/quoting metadata is dropped. -/

inductive SendPayload where
  | text (body : String)
  | imageUrl (url : String) (caption : String)
  | media (kind : String) (buffer : List Nat) (caption : Option String)
  | protocolReset (groupId : String)
deriving DecidableEq, Repr

structure Send where
  jid : String
  payload : SendPayload
deriving DecidableEq, Repr

structure LogEntry where
  level : String
  text : String
deriving DecidableEq, Repr

/-! ## Anti-delete: the `messages.update` handler (Signal A)

Lines 476–512 of `src/silva.js`.  The media download
(`downloadContentFromMessage` plus the chunk loop) is the function
parameter `dl`; a `.error` models the throw that the handler's `try`
catches with a DEBUG log. -/

/-- One element of a `messages.update` batch, `{key, update}`, where
`messageNulled` is `update?.message === null`. -/

structure UpdateItem where
  key : MsgKey
  messageNulled : Bool
deriving DecidableEq, Repr

structure UpdEffects where
  sends : List Send
  logs : List LogEntry
deriving DecidableEq, Repr

/-- The media branch of the update handler: download, then send the buffer
with the caption when one is present; a throw is caught and logged at
DEBUG as `Recovery failed`. -/

def mediaRecover (alert : Send) (owner : String)
    (dl : MsgContent → Except String (List Nat)) (msg : MsgContent)
    (kind : String) (cap : String) : UpdEffects :=
  match dl msg with
  | .ok b =>
      ⟨[alert, ⟨owner, .media kind b (if cap == "" then none else some cap)⟩], []⟩
  | .error e => ⟨[alert], [⟨"DEBUG", "Recovery failed: " ++ e⟩]⟩

/-- The per-item body of the `messages.update` anti-delete handler.
`ownerId` is `safeGetUserJid(sock)`.  Note the cache-miss path
(`if (!original?.message || !owner) continue`): no send, no log. -/

def antiDeleteUpdateItem (cache : Cache) (ownerId : Option String)
    (dl : MsgContent → Except String (List Nat)) (it : UpdateItem) : UpdEffects :=
  if it.key.remoteJid == "status@broadcast" then ⟨[], []⟩
  else if it.messageNulled && !it.key.fromMe then
    match cacheGet (it.key.remoteJid, it.key.id) cache, ownerId with
    | some entry, some owner =>
      let alert : Send :=
        ⟨owner, .text ("🚨 *Anti-Delete* — Message recovered from "
          ++ (it.key.participant.getD it.key.remoteJid))⟩
      match entry.message with
      | .conversation t => ⟨[alert, ⟨owner, .text t⟩], []⟩
      | .extendedTextMessage t => ⟨[alert, ⟨owner, .text t⟩], []⟩
      | .imageMessage cap => mediaRecover alert owner dl entry.message "image" cap
      | .videoMessage cap => mediaRecover alert owner dl entry.message "video" cap
      | .audioMessage => mediaRecover alert owner dl entry.message "audio" ""
      | .stickerMessage => mediaRecover alert owner dl entry.message "sticker" ""
      | .documentMessage cap => mediaRecover alert owner dl entry.message "document" cap
      | .otherMessage _ => ⟨[alert], []⟩
    | _, _ => ⟨[], []⟩
  else ⟨[], []⟩

/-! ## JS string primitives

The string operations the source leans on — `startsWith`, `endsWith`,
`slice`, `trim`, `split(/\s+/)`, `split(sep)[0]`, `toLowerCase` — are
modelled directly over `List Char` so that every definition evaluates on
concrete inputs. -/

/-- The whitespace class as the source uses it (`/\s+/` over the ASCII
whitespace actually appearing in commands). -/

def jsWhitespace (c : Char) : Bool :=
  c == ' ' || c == '\t' || c == '\n' || c == '\r'

/-- Model of `s.startsWith(p)`. -/

def jsStartsWith (s p : String) : Bool := p.data.isPrefixOf s.data

/-- Model of `s.endsWith(p)`. -/

def jsEndsWith (s p : String) : Bool := p.data.isSuffixOf s.data

/-- Model of `s.slice(n)`. -/

def jsSlice (s : String) (n : Nat) : String := String.mk (s.data.drop n)

/-- Model of `s.trim()`. -/

def jsTrim (s : String) : String :=
  String.mk (((s.data.dropWhile jsWhitespace).reverse.dropWhile jsWhitespace).reverse)

/-- ASCII lower-casing of one character, as `toLowerCase` acts on the
command alphabet. -/

def jsLowerChar (c : Char) : Char :=
  if 65 ≤ c.toNat && c.toNat ≤ 90 then Char.ofNat (c.toNat + 32) else c

/-- Model of `s.toLowerCase()`. -/

def jsToLower (s : String) : String := String.mk (s.data.map jsLowerChar)

/-- Worker for `split(/\s+/)` on trimmed input: split into maximal
non-whitespace runs. -/

def jsWordsAux : List Char → List Char → List String
  | [], acc => if acc.isEmpty then [] else [String.mk acc.reverse]
  | c :: cs, acc =>
      if jsWhitespace c then
        if acc.isEmpty then jsWordsAux cs []
        else String.mk acc.reverse :: jsWordsAux cs []
      else jsWordsAux cs (c :: acc)

/-- Model of `s.split(/\s+/)` on trimmed input (empty tokens dropped). -/

def jsWords (s : String) : List String := jsWordsAux s.data []

/-- Characters before the first occurrence of `sep`. -/

def jsBeforeChar (sep : Char) : List Char → List Char
  | [] => []
  | c :: cs => if c == sep then [] else c :: jsBeforeChar sep cs

/-- Model of `s.split(sep)[0]`. -/

def jsBeforeSep (sep : Char) (s : String) : String :=
  String.mk (jsBeforeChar sep s.data)

/-- Model of `xs.join(sep)`. -/

def jsJoin (sep : String) : List String → String
  | [] => ""
  | [x] => x
  | x :: xs => x ++ sep ++ jsJoin sep xs

/-! ## Anti-delete: the `messages.delete` handler (Signal B)

Lines 515–581 of `src/silva.js`.  The long-lived store is the parameter
`storeLoad` (`store.loadMessage(jid, id)`); `downloadAsBuffer` returns
`none` after logging when the download throws. -/

/-- Runtime configuration consumed by the modelled core.  `MODE` is the
mutable process-wide mode flag; the rest is read-only. -/

structure Config where
  MODE : String
  cmdPfx : String
  OWNER_NUMBER : String
  BOT_NAME : String
  ALIVE_IMG : String
  LIVE_MSG : String
  ANTIDELETE_GROUP : Bool
  ANTIDELETE_PRIVATE : Bool
  ANTIDELETE_SEND_TO_ORIGINAL : Bool
deriving DecidableEq, Repr

/-- The owner jid: `config.OWNER_NUMBER + "@s.whatsapp.net"`. -/

def ownerJidOf (cfg : Config) : String := cfg.OWNER_NUMBER ++ "@s.whatsapp.net"

/-- Model of `downloadAsBuffer`: download a media message as one buffer; on a throw
it logs an ERROR and resolves to `null`. -/

def downloadAsBuffer (dl : MsgContent → Except String (List Nat))
    (msg : MsgContent) : Option (List Nat) × List LogEntry :=
  match dl msg with
  | .ok b => (some b, [])
  | .error e => (none, [⟨"ERROR", "downloadAsBuffer error: " ++ e⟩])

/-- Effects of one `messages.delete` key: whether `store.loadMessage` was
reached, the messages sent, and the log lines written. -/

structure DelEffects where
  storeQueried : Bool
  sends : List Send
  logs : List LogEntry
deriving DecidableEq, Repr

/-- The caption of the anti-delete alert message. -/

def deleteCaption (isGroup : Bool) (senderName : String) : String :=
  "⚠️ *Anti-Delete Alert!*\n\n👤 *Sender:* @" ++ senderName ++ "\n*Chat:* "
    ++ (if isGroup then "Group" else "Private") ++ "\n\n💬 *Restored Message:*"

/-- The per-key body of the `messages.delete` handler.  The per-origin
toggle is consulted first; only then is the long-lived store read. -/

def antiDeleteDeleteKey (cfg : Config)
    (storeLoad : String → String → Option MsgContent)
    (dl : MsgContent → Except String (List Nat)) (key : MsgKey) : DelEffects :=
  let fromJid := key.remoteJid
  let isGroup := jsEndsWith fromJid "@g.us"
  if (isGroup && !cfg.ANTIDELETE_GROUP) || (!isGroup && !cfg.ANTIDELETE_PRIVATE) then
    ⟨false, [],
      [⟨"DEBUG", "Anti-delete disabled for " ++ (if isGroup then "group" else "private")⟩]⟩
  else
    match storeLoad fromJid key.id with
    | none => ⟨true, [], [⟨"WARN", "No stored message found for " ++ key.id⟩]⟩
    | some msg =>
      let sender := key.participant.getD fromJid
      let senderName := jsBeforeSep '@' sender
      let caption := deleteCaption isGroup senderName
      let targetJid := if cfg.ANTIDELETE_SEND_TO_ORIGINAL then fromJid else ownerJidOf cfg
      let okLog : LogEntry := ⟨"SUCCESS", "Restored deleted message from " ++ senderName⟩
      match msg with
      | .conversation t =>
          ⟨true, [⟨targetJid, .text (caption ++ "\n\n" ++ t)⟩], [okLog]⟩
      | .extendedTextMessage t =>
          ⟨true, [⟨targetJid, .text (caption ++ "\n\n" ++ t)⟩], [okLog]⟩
      | .imageMessage cap =>
          let r := downloadAsBuffer dl msg
          ⟨true,
            (match r.1 with
             | some b => [⟨targetJid, .media "image" b (some (caption ++ "\n\n" ++ cap))⟩]
             | none => []),
            r.2 ++ [okLog]⟩
      | .videoMessage cap =>
          let r := downloadAsBuffer dl msg
          ⟨true,
            (match r.1 with
             | some b => [⟨targetJid, .media "video" b (some (caption ++ "\n\n" ++ cap))⟩]
             | none => []),
            r.2 ++ [okLog]⟩
      | .documentMessage _ =>
          let r := downloadAsBuffer dl msg
          ⟨true,
            (match r.1 with
             | some b => [⟨targetJid, .media "document" b (some caption)⟩]
             | none => []),
            r.2 ++ [okLog]⟩
      | other =>
          ⟨true,
            [⟨targetJid,
              .text (caption ++ "\n\n[Unsupported Message Type: " ++ msgTypeName other ++ "]")⟩],
            [okLog]⟩

/-! ## Command dispatch: registry, permission gate

The main `messages.upsert` handler, lines 631–1071 of `src/silva.js`.
Purely informational log lines (the per-message MESSAGE line, the content
DEBUG line) and side paths not reached by commands (newsletter
auto-react, `readMessages`) are not carried in the effect lists; every
log line a claim mentions is. -/

/-- A thrown JS error as the dispatch boundary observes it. -/

structure JsError where
  message : String
  stack : Option String
deriving DecidableEq, Repr

/-- One entry of `groupMetadata(...).participants`. -/

structure Participant where
  id : String
  admin : Bool
  superAdmin : Bool
deriving DecidableEq, Repr

structure GroupMetadata where
  participants : List Participant
deriving DecidableEq, Repr

/-- The context object passed to `handler.execute` (lines 1030–1043);
`sock`, `message` and `contextInfo` are collaborator handles and are not
data. -/

structure ExecContext where
  text : String
  jid : String
  sender : String
  isGroup : Bool
  args : List String
  command : String
  cmdPfx : String
  isOwner : Bool

/-- A loaded plugin: the alias set of its anchored case-insensitive
command pattern (e.g. `/^(grouptest|gt)$/i` ↦ `["grouptest", "gt"]`),
the `pluginInfo` requirement flags, and the execution callback. -/

structure PluginHandler where
  aliases : List String
  help : List String
  tags : List String
  group : Bool
  admin : Bool
  botAdmin : Bool
  owner : Bool
  filename : String
  execute : ExecContext → Except JsError Unit

/-- Model of `cmdRegex.test(firstWord)` for an anchored case-insensitive alias
pattern: membership of the (already lower-cased) command token in the
lower-cased alias set. -/

def pluginMatches (p : PluginHandler) (command : String) : Bool :=
  p.aliases.any (fun a => jsToLower a == command)

/-- Model of `isJidGroup` (Baileys): the jid ends in `@g.us`. -/

def isJidGroup (jid : String) : Bool := jsEndsWith jid "@g.us"

/-- The flag `isOwner = sender === ownerJid || m.key.fromMe` (line 764);
`sender` is `m.key.remoteJid`. -/

def isOwnerOf (cfg : Config) (k : MsgKey) : Bool :=
  (k.remoteJid == ownerJidOf cfg) || k.fromMe

def ownerDenyText : String := "👑 Owner only command"

def groupDenyText : String := "👥 Group only command"

def adminDenyText : String := "👮 Admin required"

def botAdminDenyText : String := "🤖 Bot needs admin rights"

/-- The admin check (lines 993–1007): only performed for group messages;
a failing `groupMetadata` query is caught, logged as a warning, and the
check falls through without denying. -/

def adminCheck (p : PluginHandler) (isGroupMsg : Bool) (participantId : String)
    (gmeta : Except String GroupMetadata) : List LogEntry × Option String :=
  if p.admin && isGroupMsg then
    match gmeta with
    | .ok md =>
      match md.participants.find? (fun q => q.id == participantId) with
      | some q =>
          if !q.admin && !q.superAdmin then ([], some adminDenyText) else ([], none)
      | none => ([], some adminDenyText)
    | .error e => ([⟨"WARN", "Admin check failed: " ++ e⟩], none)
  else ([], none)

/-- The bot-admin check (lines 1010–1025), same shape against the bot's
own jid. -/

def botAdminCheck (p : PluginHandler) (isGroupMsg : Bool) (botJid : String)
    (gmeta : Except String GroupMetadata) : List LogEntry × Option String :=
  if p.botAdmin && isGroupMsg then
    match gmeta with
    | .ok md =>
      match md.participants.find? (fun q => q.id == botJid) with
      | some q =>
          if !q.admin && !q.superAdmin then ([], some botAdminDenyText) else ([], none)
      | none => ([], some botAdminDenyText)
    | .error e => ([⟨"WARN", "Bot admin check failed: " ++ e⟩], none)
  else ([], none)

/-- The permission gate, lines 975–1025 in order: owner, then group-only,
then admin, then bot-admin; the first denial is returned and the later
checks are not consulted.  The result is the warning log lines emitted by
failed metadata queries plus the denial text, if any. -/

def permGate (p : PluginHandler) (isOwner isGroupMsg : Bool)
    (participantId botJid : String) (gmeta : Except String GroupMetadata) :
    List LogEntry × Option String :=
  if p.owner && !isOwner then ([], some ownerDenyText)
  else if p.group && !isGroupMsg then ([], some groupDenyText)
  else
    let a := adminCheck p isGroupMsg participantId gmeta
    match a.2 with
    | some d => (a.1, some d)
    | none =>
      let b := botAdminCheck p isGroupMsg botJid gmeta
      (a.1 ++ b.1, b.2)

/-! ## Command dispatch: the router -/

/-- What one message's trip through the main handler ended as — exactly
one terminal per message. -/

inductive DispatchResult where
  | statusHandled
  | noMessage
  | droppedPrivateMode
  | unsupportedContent
  | notForBot
  | core (cmd : String)
  | denied (reason : String)
  | executedOk (cmd : String)
  | executedFail (cmd : String) (errMessage : String)
  | notFound (cmd : String)
deriving DecidableEq, Repr

/-- Observable outcome of dispatching one message: terminal state, the
messages sent, the log lines written, the mode flag afterwards (the
`mode` command mutates `config.MODE`), and whether a plugin execution
callback was invoked. -/

structure DispatchOut where
  result : DispatchResult
  sends : List Send
  logs : List LogEntry
  modeAfter : String
  handlerInvoked : Bool
deriving DecidableEq, Repr

/-- Outcome that leaves the mode unchanged and invokes no handler. -/

def baseOut (cfg : Config) (r : DispatchResult) (sends : List Send)
    (logs : List LogEntry) : DispatchOut :=
  ⟨r, sends, logs, cfg.MODE, false⟩

/-- Text content extraction for command parsing (lines 776–794);
variants outside the five listed ones are not command-capable and the
loop continues. -/

def extractContent : MsgContent → Option String
  | .conversation t => some t
  | .extendedTextMessage t => some t
  | .imageMessage cap => some cap
  | .videoMessage cap => some cap
  | .documentMessage cap => some cap
  | _ => none

/-- The pong reply text with the measured latency. -/

def pingText (cfg : Config) (latency : Nat) : String :=
  "🏓 *Pong!* " ++ toString latency ++ " ms " ++ cfg.BOT_NAME ++ " is live!"

def modeUsageText (cfg : Config) : String :=
  "📊 *Current MODE:* " ++ cfg.MODE ++ "\n\n*Usage:* " ++ cfg.cmdPfx
    ++ "mode <private|public>\n\n• *private* - Only owner can use bot\n• *public* - Everyone can use bot"

/-- ASCII upper-casing, for `newMode.toUpperCase()`. -/

def jsUpperChar (c : Char) : Char :=
  if 97 ≤ c.toNat && c.toNat ≤ 122 then Char.ofNat (c.toNat - 32) else c

def jsToUpper (s : String) : String := String.mk (s.data.map jsUpperChar)

def modeChangedText (newMode : String) : String :=
  "✅ Bot MODE changed to: *" ++ jsToUpper newMode ++ "*\n\n"
    ++ (if newMode == "private" then "🔒 Only you can use the bot now."
        else "🌍 Everyone can use the bot now.")

/-- Menu caption (command listing; presentation only, kept abbreviated). -/

def menuText (cfg : Config) (pl : List PluginHandler) : String :=
  "*✦ " ++ cfg.BOT_NAME ++ " ✦ Command Menu* — plugins: "
    ++ toString pl.length ++ " — mode: " ++ cfg.MODE

/-- The command part of the main handler, from the prefix test (line 799)
through built-ins to plugin matching, gating and execution (line 1062). -/

def dispatchCommand (cfg : Config) (pl : List PluginHandler)
    (gmeta : Except String GroupMetadata) (sockUserId : String) (nowMs : Nat)
    (m : InMsg) (text : String) : DispatchOut :=
  let sender := m.key.remoteJid
  let isGroupMsg := isJidGroup sender
  if !(jsStartsWith text cfg.cmdPfx) then
    baseOut cfg .notForBot [] [⟨"DEBUG", "Message not for bot, ignoring."⟩]
  else
    let commandText := jsTrim (jsSlice text cfg.cmdPfx.data.length)
    let tokens := jsWords commandText
    let command := jsToLower (tokens.headD "")
    let args := tokens.drop 1
    let cmdLog : LogEntry :=
      ⟨"COMMAND", "Detected command: " ++ command ++ " | Args: " ++ jsJoin " " args⟩
    if command == "ping" then
      let latency := match m.messageTimestamp with
        | some ts => nowMs - ts * 1000
        | none => 0
      baseOut cfg (.core "ping") [⟨sender, .text (pingText cfg latency)⟩] [cmdLog]
    else if command == "mode" then
      if !(isOwnerOf cfg m.key) then
        baseOut cfg (.core "mode") [⟨sender, .text "❌ Owner only command!"⟩] [cmdLog]
      else
        let newMode := jsToLower (args.headD "")
        if newMode == "private" || newMode == "public" then
          ⟨.core "mode", [⟨sender, .text (modeChangedText newMode)⟩], [cmdLog], newMode, false⟩
        else
          baseOut cfg (.core "mode") [⟨sender, .text (modeUsageText cfg)⟩] [cmdLog]
    else if command == "resetsession" then
      if !(isOwnerOf cfg m.key) then
        baseOut cfg (.core "resetsession") [⟨sender, .text "❌ Owner only command!"⟩] [cmdLog]
      else if isGroupMsg then
        baseOut cfg (.core "resetsession")
          [⟨sender, .protocolReset sender⟩, ⟨sender, .text "✅ Group session reset initiated!"⟩]
          [cmdLog]
      else
        baseOut cfg (.core "resetsession") [⟨sender, .text "✅ Session reset!"⟩] [cmdLog]
    else if command == "alive" then
      baseOut cfg (.core "alive") [⟨sender, .imageUrl cfg.ALIVE_IMG cfg.LIVE_MSG⟩] [cmdLog]
    else if command == "menu" then
      baseOut cfg (.core "menu")
        [⟨sender, .imageUrl "https://files.catbox.moe/5uli5p.jpeg" (menuText cfg pl)⟩] [cmdLog]
    else
      match pl.find? (fun p => pluginMatches p command) with
      | none =>
          baseOut cfg (.notFound command) []
            [cmdLog, ⟨"WARN", "Command not found: " ++ command⟩]
      | some p =>
        let participantId := m.key.participant.getD sender
        let botJid := jsBeforeSep ':' sockUserId ++ "@s.whatsapp.net"
        let g := permGate p (isOwnerOf cfg m.key) isGroupMsg participantId botJid gmeta
        match g.2 with
        | some reason =>
            baseOut cfg (.denied reason) [⟨sender, .text reason⟩] ([cmdLog] ++ g.1)
        | none =>
          let ctx : ExecContext :=
            ⟨commandText, sender, participantId, isGroupMsg, args, command,
              cfg.cmdPfx, isOwnerOf cfg m.key⟩
          match p.execute ctx with
          | .ok _ =>
              ⟨.executedOk command, [],
                [cmdLog] ++ g.1
                  ++ [⟨"PLUGIN", "Executing plugin command: " ++ command⟩,
                      ⟨"SUCCESS", "Plugin executed: " ++ command⟩],
                cfg.MODE, true⟩
          | .error err =>
              ⟨.executedFail command err.message,
                [⟨sender, .text ("❌ Command \"" ++ command ++ "\" failed.\n\n*Error:* "
                    ++ err.message)⟩],
                [cmdLog] ++ g.1
                  ++ [⟨"PLUGIN", "Executing plugin command: " ++ command⟩,
                      ⟨"ERROR", "❌ Plugin \"" ++ command ++ "\" failed: " ++ err.message⟩,
                      ⟨"ERROR", "   Stack: " ++ err.stack.getD "No stack trace"⟩,
                      ⟨"ERROR", "   File: " ++ p.filename⟩],
                cfg.MODE, true⟩

/-- The post-mode-check stage: content extraction then command handling. -/

def dispatchContent (cfg : Config) (pl : List PluginHandler)
    (gmeta : Except String GroupMetadata) (sockUserId : String) (nowMs : Nat)
    (m : InMsg) (content : MsgContent) : DispatchOut :=
  match extractContent content with
  | none => baseOut cfg .unsupportedContent [] []
  | some text => dispatchCommand cfg pl gmeta sockUserId nowMs m text

/-- One message through the main handler (lines 641–1066): status path,
missing content, the private-mode drop (lines 763–769), then command
handling. -/

def dispatchMessage (cfg : Config) (pl : List PluginHandler)
    (gmeta : Except String GroupMetadata) (sockUserId : String) (nowMs : Nat)
    (m : InMsg) : DispatchOut :=
  if m.key.remoteJid == "status@broadcast" then
    baseOut cfg .statusHandled [] []
  else
    match m.message with
    | none => baseOut cfg .noMessage [] []
    | some content =>
      if (cfg.MODE == "private") && !(isOwnerOf cfg m.key) then
        baseOut cfg .droppedPrivateMode []
          [⟨"DEBUG", "Private mode: Non-owner (" ++ m.key.remoteJid ++ ") message ignored."⟩]
      else dispatchContent cfg pl gmeta sockUserId nowMs m content

/-- The `for (const m of messages)` loop of the main handler: messages of
one batch are processed in order, each against the mode left by its
predecessors; one message's outcome never prevents the processing of the
rest. -/

def processBatch (cfg : Config) (pl : List PluginHandler)
    (gmeta : Except String GroupMetadata) (sockUserId : String) (nowMs : Nat) :
    List InMsg → List DispatchOut
  | [] => []
  | m :: ms =>
    let out := dispatchMessage cfg pl gmeta sockUserId nowMs m
    out :: processBatch { cfg with MODE := out.modeAfter } pl gmeta sockUserId nowMs ms

/-- A descriptor requiring both owner and group, invoked by a non-owner
group member while the metadata query would even fail: refused with the
owner text. -/

def ownerGroupPlugin : PluginHandler :=
  ⟨["og"], ["needs owner and group"], ["test"], true, false, false, true, "og.js",
    fun _ => Except.ok ()⟩

/-- A public-mode configuration fixture (owner number 100). -/

def cfgPub : Config := ⟨"public", ".", "100", "Silva", "img", "live", true, true, false⟩

/-- A plugin requiring group and group-admin rights. -/

def adminPlugin : PluginHandler :=
  ⟨["kick"], ["kick a member"], ["group"], true, true, false, false, "kick.js",
    fun _ => Except.ok ()⟩

/-- A `.kick` command sent by a plain member inside a group. -/

def mAdmin : InMsg :=
  ⟨⟨"g1@g.us", "A1", false, some "u1@s.whatsapp.net"⟩, some (.conversation ".kick"), none⟩

/-- A plugin whose callback always throws the given error. -/

def failingPlugin (err : JsError) : PluginHandler :=
  ⟨["boom"], [], [], false, false, false, false, "boom.js", fun _ => Except.error err⟩

/-- A `.boom` command in a private chat. -/

def mBoom : InMsg :=
  ⟨⟨"u1@s.whatsapp.net", "B1", false, none⟩, some (.conversation ".boom"), none⟩

/-- A private-mode configuration fixture (owner number 100). -/

def cfgPriv : Config := ⟨"private", ".", "100", "Silva", "img", "live", true, true, false⟩

/-- A `fromMe` key whose chat jid is NOT the configured owner identity. -/

def kFm : MsgKey := ⟨"friend@s.whatsapp.net", "F1", true, none⟩

/-- A plugin restricted to the owner. -/

def ownerPlugin : PluginHandler :=
  ⟨["own"], [], [], false, false, false, true, "own.js", fun _ => Except.ok ()⟩

/-! ### Cache lemmas -/

theorem find?_filter_none {α : Type} (p q : α → Bool) (l : List α)
    (h : l.find? p = none) : (l.filter q).find? p = none := by
  rw [List.find?_eq_none] at h ⊢
  intro x hx
  exact h x (List.mem_of_mem_filter hx)

theorem cacheGet_eraseKey (k : CacheKey) (c : Cache) :
    cacheGet k (c.filter (fun kv => !(kv.1 == k))) = none := by
  have h : (c.filter (fun kv => !(kv.1 == k))).find? (fun kv => kv.1 == k) = none := by
    rw [List.find?_eq_none]
    intro x hx
    have := List.of_mem_filter hx
    simpa using this
  simp [cacheGet, h]

theorem cacheGet_sweep_none (k : CacheKey) (now : Nat) (c : Cache)
    (h : cacheGet k c = none) : cacheGet k (sweep now c) = none := by
  have h' : c.find? (fun kv => kv.1 == k) = none := by
    by_contra hne
    rcases Option.ne_none_iff_exists.1 hne with ⟨kv, hkv⟩
    simp [cacheGet, ← hkv] at h
  simp [cacheGet, sweep, find?_filter_none _ _ _ h']

theorem recordBatch_single (jid mid : String) (fm : Bool) (pp : Option String)
    (content : MsgContent) (mts : Option Nat) (t : Nat) (c : Cache)
    (hmid : ¬ (mid = "")) :
    recordBatch [⟨⟨jid, mid, fm, pp⟩, some content, mts⟩] t c
      = ((jid, mid), (⟨content, t⟩ : CacheEntry))
          :: sweep t (c.filter (fun kv => !(kv.1 == (jid, mid)))) := by
  simp [recordBatch, hmid, cacheSet, sweep, List.filter_cons, Nat.sub_self, retentionWindow]

/-- C1 — The claim as frozen says `lookup` returns none whenever the
elapsed time exceeds the retention window; but `messageCache.get` never
consults the timestamp, so with no intervening sweep a stale entry is
still returned.  Concretely: recorded at t = 0, and at t = 7,200,000 ms
(two hours, beyond the one-hour window) the lookup still returns the
entry. -/

theorem C1_counterexample :
    (7200000 : Nat) - 0 > retentionWindow
    ∧ cacheGet ("c1", "m1")
        (recordBatch [⟨⟨"c1", "m1", false, none⟩, some (.conversation "hello"), none⟩] 0 [])
        = some ⟨.conversation "hello", 0⟩
    ∧ ¬ (cacheGet ("c1", "m1")
        (recordBatch [⟨⟨"c1", "m1", false, none⟩, some (.conversation "hello"), none⟩] 0 [])
        = none) := by
  refine ⟨by decide, by decide, by decide⟩

theorem sweep_cons (now : Nat) (kv : CacheKey × CacheEntry) (c : Cache) :
    sweep now (kv :: c)
      = if now - kv.2.timestamp > retentionWindow then sweep now c
        else kv :: sweep now c := by
  by_cases h : now - kv.2.timestamp > retentionWindow
  · simp [sweep, List.filter_cons, h]
  · simp [sweep, List.filter_cons, h]

/-- C1 (amended) — round trip through the cache as the code implements it:
recording `(jid, mid) ↦ content` at time `t` makes an immediate lookup
return exactly that entry; and after the sweep that runs as part of a
later record at time `now`, the lookup returns none when
`now - t > retentionWindow` and still returns exactly the recorded entry
when `now - t ≤ retentionWindow`.  (Without an intervening sweep a stale
entry is still returned — see the counterexample.) -/

theorem C1_cache_roundtrip (c : Cache) (jid mid : String) (fm : Bool)
    (pp : Option String) (content : MsgContent) (mts : Option Nat) (t now : Nat)
    (hmid : ¬ (mid = "")) :
    cacheGet (jid, mid) (recordBatch [⟨⟨jid, mid, fm, pp⟩, some content, mts⟩] t c)
      = some ⟨content, t⟩
    ∧ (now - t > retentionWindow →
        cacheGet (jid, mid)
          (sweep now (recordBatch [⟨⟨jid, mid, fm, pp⟩, some content, mts⟩] t c)) = none)
    ∧ (now - t ≤ retentionWindow →
        cacheGet (jid, mid)
          (sweep now (recordBatch [⟨⟨jid, mid, fm, pp⟩, some content, mts⟩] t c))
          = some ⟨content, t⟩) := by
  rw [recordBatch_single jid mid fm pp content mts t c hmid]
  refine ⟨by simp [cacheGet], ?_, ?_⟩
  · intro h
    rw [sweep_cons, if_pos h]
    exact cacheGet_sweep_none _ _ _
      (cacheGet_sweep_none _ _ _ (cacheGet_eraseKey _ _))
  · intro h
    rw [sweep_cons, if_neg (Nat.not_lt.2 h)]
    simp [cacheGet]

/-- C1 witness — concrete instance of the amended round-trip: recorded at
t = 0, the entry is returned verbatim right away and by a sweep at
t = 30 min; a sweep at t = 2 h removes it. -/

theorem C1_witness :
    ¬ (("m1" : String) = "")
    ∧ cacheGet ("c1", "m1")
        (recordBatch [⟨⟨"c1", "m1", false, none⟩, some (.conversation "hello"), none⟩] 0 [])
        = some ⟨.conversation "hello", 0⟩
    ∧ cacheGet ("c1", "m1")
        (sweep 1800000
          (recordBatch [⟨⟨"c1", "m1", false, none⟩, some (.conversation "hello"), none⟩] 0 []))
        = some ⟨.conversation "hello", 0⟩
    ∧ cacheGet ("c1", "m1")
        (sweep 7200000
          (recordBatch [⟨⟨"c1", "m1", false, none⟩, some (.conversation "hello"), none⟩] 0 []))
        = none :=
  ⟨by decide,
   (C1_cache_roundtrip [] "c1" "m1" false none (.conversation "hello") none 0 1800000
      (by decide)).1,
   (C1_cache_roundtrip [] "c1" "m1" false none (.conversation "hello") none 0 1800000
      (by decide)).2.2 (by decide),
   (C1_cache_roundtrip [] "c1" "m1" false none (.conversation "hello") none 0 7200000
      (by decide)).2.1 (by decide)⟩

/-- C5 — after any run of the `messages.upsert` cache listener (`record`),
every entry left in the cache passes the freshness test of the sweep that
just ran: none is older than the retention window relative to the sweep
time. -/

theorem C5_record_evicts_stale (msgs : List InMsg) (now : Nat) (c : Cache) :
    ((recordBatch msgs now c).all
      (fun kv => !(decide (now - kv.2.timestamp > retentionWindow)))) = true := by
  rw [recordBatch, sweep, List.all_eq_true]
  intro kv hkv
  exact (List.mem_filter.mp hkv).2

/-- C3 (amended) — for an update-to-null delete signal whose key misses
the cache, the handler performs no emission and writes no log line at
all: the miss is skipped silently as a no-op, not an error. -/

theorem C3_cache_miss_silent (cache : Cache) (ownerId : Option String)
    (dl : MsgContent → Except String (List Nat)) (it : UpdateItem)
    (hmiss : cacheGet (it.key.remoteJid, it.key.id) cache = none) :
    antiDeleteUpdateItem cache ownerId dl it = ⟨[], []⟩ := by
  rw [antiDeleteUpdateItem]
  · split
    · rfl
    · split <;> rfl
  · intro entry owner hsome _
    rw [hmiss] at hsome
    exact Option.noConfusion hsome

/-- C3 witness — concrete cache-miss instance: empty cache, nulled update
for a non-`fromMe` key; the handler emits nothing and logs nothing. -/

theorem C3_witness :
    antiDeleteUpdateItem [] (some "owner@s.whatsapp.net")
      (fun _ => Except.error "no network")
      ⟨⟨"c1@s.whatsapp.net", "M9", false, none⟩, true⟩ = ⟨[], []⟩ :=
  C3_cache_miss_silent [] (some "owner@s.whatsapp.net")
    (fun _ => Except.error "no network")
    ⟨⟨"c1@s.whatsapp.net", "M9", false, none⟩, true⟩ (by decide)

/-- C3 — the claim as frozen also asserts that exactly one warning is
logged on a cache miss; the handler logs nothing there: at the concrete
miss input the emission list is empty but so is the log list, so the
one-warning part of the claim is false. -/

theorem C3_counterexample :
    ¬ ((antiDeleteUpdateItem [] (some "owner@s.whatsapp.net")
          (fun _ => Except.error "no network")
          ⟨⟨"c1@s.whatsapp.net", "M9", false, none⟩, true⟩).sends = []
        ∧ ((antiDeleteUpdateItem [] (some "owner@s.whatsapp.net")
          (fun _ => Except.error "no network")
          ⟨⟨"c1@s.whatsapp.net", "M9", false, none⟩, true⟩).logs.filter
            (fun l => l.level == "WARN")).length = 1) := by
  intro h
  exact absurd h.2 (by decide)

/-- C9 — a delete-notification key whose origin kind has its recovery
toggle disabled is skipped before the store is consulted: no
`store.loadMessage` call and no send, for group keys with
`ANTIDELETE_GROUP` off and for private keys with `ANTIDELETE_PRIVATE`
off alike. -/

theorem C9_toggle_disabled_skips (cfg : Config)
    (storeLoad : String → String → Option MsgContent)
    (dl : MsgContent → Except String (List Nat)) (key : MsgKey) :
    (jsEndsWith key.remoteJid "@g.us" = true → cfg.ANTIDELETE_GROUP = false →
      antiDeleteDeleteKey cfg storeLoad dl key
        = ⟨false, [], [⟨"DEBUG", "Anti-delete disabled for group"⟩]⟩)
    ∧ (jsEndsWith key.remoteJid "@g.us" = false → cfg.ANTIDELETE_PRIVATE = false →
      antiDeleteDeleteKey cfg storeLoad dl key
        = ⟨false, [], [⟨"DEBUG", "Anti-delete disabled for private"⟩]⟩) := by
  constructor
  · intro hg ht
    rw [antiDeleteDeleteKey]
    simp [hg, ht]
  · intro hg ht
    rw [antiDeleteDeleteKey]
    simp [hg, ht]

/-- C9 witness — concrete instances: a group key with the group toggle
off and a private key with the private toggle off are both skipped with
no store query and no send. -/

theorem C9_witness :
    antiDeleteDeleteKey
      ⟨"public", ".", "100", "Silva", "img", "live", false, true, false⟩
      (fun _ _ => some (.conversation "kept"))
      (fun _ => Except.ok [1])
      ⟨"g1@g.us", "D1", false, some "u1@s.whatsapp.net"⟩
      = ⟨false, [], [⟨"DEBUG", "Anti-delete disabled for group"⟩]⟩
    ∧ antiDeleteDeleteKey
      ⟨"public", ".", "100", "Silva", "img", "live", true, false, false⟩
      (fun _ _ => some (.conversation "kept"))
      (fun _ => Except.ok [1])
      ⟨"u2@s.whatsapp.net", "D2", false, none⟩
      = ⟨false, [], [⟨"DEBUG", "Anti-delete disabled for private"⟩]⟩ :=
  ⟨(C9_toggle_disabled_skips
      ⟨"public", ".", "100", "Silva", "img", "live", false, true, false⟩
      (fun _ _ => some (.conversation "kept")) (fun _ => Except.ok [1])
      ⟨"g1@g.us", "D1", false, some "u1@s.whatsapp.net"⟩).1 (by decide) rfl,
   (C9_toggle_disabled_skips
      ⟨"public", ".", "100", "Silva", "img", "live", true, false, false⟩
      (fun _ _ => some (.conversation "kept")) (fun _ => Except.ok [1])
      ⟨"u2@s.whatsapp.net", "D2", false, none⟩).2 (by decide) rfl⟩

/-! ### Permission gate lemmas -/

theorem gate_owner_deny (p : PluginHandler) (h : p.owner = true)
    (isG : Bool) (pid bj : String) (gm : Except String GroupMetadata) :
    permGate p false isG pid bj gm = ([], some ownerDenyText) := by
  simp [permGate, h]

theorem adminCheck_options (p : PluginHandler) (isG : Bool) (pid : String)
    (gm : Except String GroupMetadata) :
    (adminCheck p isG pid gm).2 = none
    ∨ (adminCheck p isG pid gm).2 = some adminDenyText := by
  rw [adminCheck.eq_def]
  split
  all_goals try split
  all_goals try split
  all_goals try split
  all_goals simp

theorem botAdminCheck_options (p : PluginHandler) (isG : Bool) (bj : String)
    (gm : Except String GroupMetadata) :
    (botAdminCheck p isG bj gm).2 = none
    ∨ (botAdminCheck p isG bj gm).2 = some botAdminDenyText := by
  rw [botAdminCheck.eq_def]
  split
  all_goals try split
  all_goals try split
  all_goals try split
  all_goals simp

/-- C4 — the permission gate evaluates owner, then group-only, then
admin, then bot-admin, and the first failing check short-circuits the
rest with its own refusal text; in particular a descriptor with both the
owner and group flags, invoked by a non-owner inside a group, is refused
with the owner text, not the group text. -/

theorem C4_gate_order (p : PluginHandler) (isOwner isGroupMsg : Bool)
    (pid botJid : String) (gmeta : Except String GroupMetadata) :
    (p.owner = true → isOwner = false →
      permGate p isOwner isGroupMsg pid botJid gmeta = ([], some ownerDenyText))
    ∧ (p.owner = true → p.group = true → isOwner = false → isGroupMsg = true →
      permGate p isOwner isGroupMsg pid botJid gmeta = ([], some ownerDenyText))
    ∧ ((p.owner && !isOwner) = false → p.group = true → isGroupMsg = false →
      permGate p isOwner isGroupMsg pid botJid gmeta = ([], some groupDenyText))
    ∧ ((p.owner && !isOwner) = false → (p.group && !isGroupMsg) = false →
      ∀ l d, adminCheck p isGroupMsg pid gmeta = (l, some d) →
      permGate p isOwner isGroupMsg pid botJid gmeta = (l, some d))
    ∧ ((p.owner && !isOwner) = false → (p.group && !isGroupMsg) = false →
      ∀ l, adminCheck p isGroupMsg pid gmeta = (l, none) →
      permGate p isOwner isGroupMsg pid botJid gmeta
        = (l ++ (botAdminCheck p isGroupMsg botJid gmeta).1,
           (botAdminCheck p isGroupMsg botJid gmeta).2)) := by
  refine ⟨?_, ?_, ?_, ?_, ?_⟩
  · intro h1 h2
    subst h2
    exact gate_owner_deny p h1 isGroupMsg pid botJid gmeta
  · intro h1 _ h3 _
    subst h3
    exact gate_owner_deny p h1 isGroupMsg pid botJid gmeta
  · intro h1 h2 h3
    subst h3
    simp [permGate, h1, h2]
  · intro h1 h2 l d ha
    simp [permGate, h1, h2, ha]
  · intro h1 h2 l ha
    simp [permGate, h1, h2, ha]

theorem C4_witness :
    permGate ownerGroupPlugin false true "u1@s.whatsapp.net" "bot@s.whatsapp.net"
      (Except.error "down") = ([], some ownerDenyText) :=
  (C4_gate_order ownerGroupPlugin false true "u1@s.whatsapp.net" "bot@s.whatsapp.net"
    (Except.error "down")).2.1 rfl rfl rfl rfl

/-- C2 — when the group-metadata query fails during the admin check of an
admin-required plugin, the dispatcher logs the failure as a warning but
then falls through and EXECUTES the handler instead of denying: the
handler is invoked, no refusal is sent.  This exhibits the divergence
from the claim (which requires denial-with-warning and no execution). -/

theorem C2_admin_query_failure_executes :
    (dispatchMessage cfgPub [adminPlugin] (Except.error "query failed") "77:5" 0 mAdmin).result
        = .executedOk "kick"
    ∧ (dispatchMessage cfgPub [adminPlugin] (Except.error "query failed") "77:5" 0
        mAdmin).handlerInvoked = true
    ∧ (⟨"WARN", "Admin check failed: query failed"⟩ : LogEntry)
        ∈ (dispatchMessage cfgPub [adminPlugin] (Except.error "query failed") "77:5" 0
            mAdmin).logs
    ∧ (dispatchMessage cfgPub [adminPlugin] (Except.error "query failed") "77:5" 0
        mAdmin).sends = [] := by
  refine ⟨by decide, by decide, by decide, by decide⟩

/-- C6 — in private mode every message from a non-owner (any content, so
in particular every command) is dropped before parsing: the debug line is
the only effect, nothing is sent, no handler runs, built-ins included. -/

theorem C6_private_mode_drops (cfg : Config) (pl : List PluginHandler)
    (gmeta : Except String GroupMetadata) (suid : String) (nowMs : Nat)
    (k : MsgKey) (content : MsgContent) (mts : Option Nat)
    (hmode : cfg.MODE = "private") (hown : isOwnerOf cfg k = false)
    (hstat : ¬ (k.remoteJid = "status@broadcast")) :
    dispatchMessage cfg pl gmeta suid nowMs ⟨k, some content, mts⟩
      = baseOut cfg .droppedPrivateMode []
          [⟨"DEBUG", "Private mode: Non-owner (" ++ k.remoteJid ++ ") message ignored."⟩] := by
  simp [dispatchMessage, hmode, hown, hstat]

/-- C6 witness — a non-owner `.ping` in private mode: dropped with no
reply, even though `.ping` is a working built-in in public mode. -/

theorem C6_witness :
    dispatchMessage ⟨"private", ".", "100", "Silva", "img", "live", true, true, false⟩
      [] (Except.error "x") "77:5" 0
      ⟨⟨"u9@s.whatsapp.net", "Z1", false, none⟩, some (.conversation ".ping"), none⟩
      = baseOut ⟨"private", ".", "100", "Silva", "img", "live", true, true, false⟩
          .droppedPrivateMode []
          [⟨"DEBUG", "Private mode: Non-owner (u9@s.whatsapp.net) message ignored."⟩] :=
  C6_private_mode_drops
    ⟨"private", ".", "100", "Silva", "img", "live", true, true, false⟩
    [] (Except.error "x") "77:5" 0
    ⟨"u9@s.whatsapp.net", "Z1", false, none⟩ (.conversation ".ping") none
    rfl (by decide) (by decide)

/-- C7 — a registry whose every descriptor carries the owner flag never
has a handler invoked on behalf of a non-owner sender, whatever the
group, admin and bot-admin flags, the metadata answer, or the message
say: the owner check denies first. -/

theorem C7_owner_flag_blocks (cfg : Config) (pl : List PluginHandler)
    (gmeta : Except String GroupMetadata) (suid : String) (nowMs : Nat) (m : InMsg)
    (hown : isOwnerOf cfg m.key = false)
    (hall : ∀ p ∈ pl, p.owner = true) :
    (dispatchMessage cfg pl gmeta suid nowMs m).handlerInvoked = false := by
  rw [dispatchMessage]
  split
  · rfl
  split
  · rfl
  split
  · rfl
  rw [dispatchContent]
  split
  · rfl
  simp only [dispatchCommand]
  split
  · rfl
  split
  · rfl
  split
  · split
    · rfl
    · split <;> rfl
  split
  · split
    · rfl
    · split <;> rfl
  split
  · rfl
  split
  · rfl
  split
  · rfl
  · rename_i p hfind
    split
    · rfl
    · rename_i hnone
      have hp : p ∈ pl := List.mem_of_find?_eq_some hfind
      rw [hown, gate_owner_deny p (hall p hp)] at hnone
      exact Option.noConfusion hnone

/-- C7 witness — the owner-and-group plugin, addressed by a non-owner
group member: no handler invocation. -/

theorem C7_witness :
    (dispatchMessage cfgPub [ownerGroupPlugin] (Except.ok ⟨[]⟩) "77:5" 0
      ⟨⟨"g1@g.us", "W1", false, some "u1@s.whatsapp.net"⟩,
        some (.conversation ".og"), none⟩).handlerInvoked = false :=
  C7_owner_flag_blocks cfgPub [ownerGroupPlugin] (Except.ok ⟨[]⟩) "77:5" 0
    ⟨⟨"g1@g.us", "W1", false, some "u1@s.whatsapp.net"⟩,
      some (.conversation ".og"), none⟩
    (by decide)
    (by intro p hp; simp at hp; rw [hp]; rfl)

/-- C8 — whatever error the matched handler throws: the dispatch boundary
absorbs it into a terminal `executedFail` outcome, logs the failing
command name, the stack detail and the plugin file, sends the sender the
failure notice, and the batch loop goes on to process the remaining
messages exactly as it would have. -/

theorem C8_handler_failure_contained (err : JsError) (rest : List InMsg) :
    dispatchMessage cfgPub [failingPlugin err] (Except.ok ⟨[]⟩) "77:5" 0 mBoom
      = ⟨.executedFail "boom" err.message,
         [⟨"u1@s.whatsapp.net",
            .text ("❌ Command \"boom\" failed.\n\n*Error:* " ++ err.message)⟩],
         [⟨"COMMAND", "Detected command: boom | Args: "⟩,
          ⟨"PLUGIN", "Executing plugin command: boom"⟩,
          ⟨"ERROR", "❌ Plugin \"boom\" failed: " ++ err.message⟩,
          ⟨"ERROR", "   Stack: " ++ err.stack.getD "No stack trace"⟩,
          ⟨"ERROR", "   File: boom.js"⟩],
         "public", true⟩
    ∧ processBatch cfgPub [failingPlugin err] (Except.ok ⟨[]⟩) "77:5" 0 (mBoom :: rest)
      = dispatchMessage cfgPub [failingPlugin err] (Except.ok ⟨[]⟩) "77:5" 0 mBoom
          :: processBatch cfgPub [failingPlugin err] (Except.ok ⟨[]⟩) "77:5" 0 rest := by
  exact ⟨rfl, rfl⟩

theorem permGate_owner_pass (p : PluginHandler) (isG : Bool) (pid bj : String)
    (gm : Except String GroupMetadata) :
    (permGate p true isG pid bj gm).2 = none
    ∨ (permGate p true isG pid bj gm).2 = some groupDenyText
    ∨ (permGate p true isG pid bj gm).2 = some adminDenyText
    ∨ (permGate p true isG pid bj gm).2 = some botAdminDenyText := by
  unfold permGate
  simp only [Bool.not_true, Bool.and_false, Bool.false_eq_true, if_false]
  split
  · simp
  · rcases adminCheck_options p isG pid gm with ha | ha
    · rcases botAdminCheck_options p isG bj gm with hb | hb
      · simp [ha, hb]
      · simp [ha, hb]
    · simp [ha]

/-- C10 — a key with `fromMe` set classifies the sender as owner: the
router treats it as the owner everywhere — the private-mode drop is
bypassed, the gate can never return the owner refusal, and concretely
(in private mode, in a chat other than the owner jid) the owner-only
`mode` and `resetsession` built-ins run and an owner-flagged plugin is
executed. -/

theorem C10_fromMe_is_owner :
    (∀ (cfg : Config) (k : MsgKey), k.fromMe = true → isOwnerOf cfg k = true)
    ∧ (∀ (cfg : Config) (pl : List PluginHandler)
        (gmeta : Except String GroupMetadata) (suid : String) (nowMs : Nat)
        (k : MsgKey) (content : MsgContent) (mts : Option Nat), k.fromMe = true →
        ¬ (k.remoteJid = "status@broadcast") →
        dispatchMessage cfg pl gmeta suid nowMs ⟨k, some content, mts⟩
          = dispatchContent cfg pl gmeta suid nowMs ⟨k, some content, mts⟩ content)
    ∧ (∀ (p : PluginHandler) (isG : Bool) (pid bj : String)
        (gm : Except String GroupMetadata),
        ¬ ((permGate p true isG pid bj gm).2 = some ownerDenyText))
    ∧ dispatchMessage cfgPriv [] (Except.error "x") "77:5" 0
        ⟨kFm, some (.conversation ".mode public"), none⟩
        = ⟨.core "mode",
           [⟨"friend@s.whatsapp.net", .text (modeChangedText "public")⟩],
           [⟨"COMMAND", "Detected command: mode | Args: public"⟩], "public", false⟩
    ∧ dispatchMessage cfgPriv [] (Except.error "x") "77:5" 0
        ⟨kFm, some (.conversation ".resetsession"), none⟩
        = baseOut cfgPriv (.core "resetsession")
            [⟨"friend@s.whatsapp.net", .text "✅ Session reset!"⟩]
            [⟨"COMMAND", "Detected command: resetsession | Args: "⟩]
    ∧ (dispatchMessage cfgPriv [ownerPlugin] (Except.error "x") "77:5" 0
        ⟨kFm, some (.conversation ".own"), none⟩).result = .executedOk "own"
    ∧ (dispatchMessage cfgPriv [ownerPlugin] (Except.error "x") "77:5" 0
        ⟨kFm, some (.conversation ".own"), none⟩).handlerInvoked = true := by
  refine ⟨?_, ?_, ?_, by decide, by decide, by decide, by decide⟩
  · intro cfg k h
    simp [isOwnerOf, h]
  · intro cfg pl gmeta suid nowMs k content mts hfm hstat
    have ho : isOwnerOf cfg k = true := by simp [isOwnerOf, hfm]
    simp [dispatchMessage, hstat, ho]
  · intro p isG pid bj gm h
    rcases permGate_owner_pass p isG pid bj gm with h0 | h0 | h0 | h0 <;>
      rw [h0] at h <;> exact absurd h (by decide)

/-- C10 witness — concrete instances of the universally quantified parts:
the `fromMe` key is classified as owner and its message bypasses the
private-mode drop. -/

theorem C10_witness :
    isOwnerOf cfgPriv kFm = true
    ∧ dispatchMessage cfgPriv [] (Except.error "x") "77:5" 0
        ⟨kFm, some (.conversation ".ping"), none⟩
        = dispatchContent cfgPriv [] (Except.error "x") "77:5" 0
            ⟨kFm, some (.conversation ".ping"), none⟩ (.conversation ".ping")
    ∧ ¬ ((permGate ownerPlugin true false "u1@s.whatsapp.net" "bot@s.whatsapp.net"
          (Except.error "x")).2 = some ownerDenyText) :=
  ⟨C10_fromMe_is_owner.1 cfgPriv kFm rfl,
   C10_fromMe_is_owner.2.1 cfgPriv [] (Except.error "x") "77:5" 0 kFm
     (.conversation ".ping") none rfl (by decide),
   C10_fromMe_is_owner.2.2.1 ownerPlugin false "u1@s.whatsapp.net" "bot@s.whatsapp.net"
     (Except.error "x")⟩

end Silva
